import Mathlib

/-!
Shallow embedding of the Telegram scheduling bot (src/Bot.py).

The bot keeps two process-global dictionaries, `channels` (channel name →
channel id) and `scheduled_messages` (message id → ScheduledMessage), plus a
one-shot job queue of armed timers.  Python `dict`s preserve insertion order
and assignment to an existing key updates its value in place, so we model
them as association lists with a replace-in-place insert.  Timestamps
(`datetime.now().timestamp()`, `datetime` values) are modelled as integer
unix seconds; `timedelta(minutes=m)` is `m * 60` seconds.

No `async` effect matters for the claims: each handler is a pure function
from the old state (and its inputs) to the new state plus the observable
outputs (result code, messages sent to a channel, notifications sent to the
requester chat).
-/

namespace Bot

/-- Python `str.lower()` (character-wise lowering), used to canonicalize
channel names.  Defined over the character list so it evaluates in the
kernel. -/
def strLower (s : String) : String := ⟨s.data.map Char.toLower⟩

/-- Python `str.startswith(p)`, defined over the character lists. -/
def strStartsWith (s p : String) : Bool := s.data.take p.data.length == p.data

/-- Association-list lookup, mirroring Python `d[k]` / `k in d`. -/
def lookupA {α : Type} : List (String × α) → String → Option α
  | [], _ => none
  | p :: ps, k => if p.1 == k then some p.2 else lookupA ps k

/-- Association-list write `d[k] = v`: replace the first binding of `k`
in place (Python dicts keep the key's position), else append. -/
def insertA {α : Type} : List (String × α) → String → α → List (String × α)
  | [], k, v => [(k, v)]
  | p :: ps, k, v => if p.1 == k then (k, v) :: ps else p :: insertA ps k v

/-- Association-list delete `del d[k]`. -/
def eraseA {α : Type} (l : List (String × α)) (k : String) : List (String × α) :=
  l.filter (fun p => p.1 != k)

/-- How many bindings of key `k` an association list holds. -/
def countKey {α : Type} (l : List (String × α)) (k : String) : Nat :=
  l.countP (fun p => p.1 == k)

/-- The `ScheduledMessage` class of Bot.py.  `job` holds the name of the
armed one-shot job when a timer was attached (`run_once` is called with
`name=message_id`), `none` when the record was rebuilt by `load_data`
(which sets no job). -/
structure ScheduledMessage where
  message_id : String
  chat_id : Int
  text : String
  scheduled_time : Int
  channel : String
  job : Option String
  active : Bool
deriving DecidableEq, Repr

/-- One record of messages.json: exactly the fields `save_data` serializes
for a message (`chat_id`, `text`, `scheduled_time`, `channel`, `active`);
the in-memory `job` handle is not persisted. -/
structure SavedMessage where
  chat_id : Int
  text : String
  scheduled_time : Int
  channel : String
  active : Bool
deriving DecidableEq, Repr

/-- The two persisted files: channels.json (name → channel id) and
messages.json (message id → saved record). -/
structure SavedData where
  channelsFile : List (String × String)
  messagesFile : List (String × SavedMessage)
deriving DecidableEq, Repr

/-- The process state: the two global dicts, the armed one-shot jobs of the
job queue (job name paired with its delay in seconds), and the current
content of the two storage files. -/
structure BotState where
  channels : List (String × String)
  scheduled_messages : List (String × ScheduledMessage)
  jobQueue : List (String × Int)
  files : SavedData
deriving DecidableEq, Repr

/-- The serializable form `save_data` builds from `scheduled_messages`. -/
def serialize_messages (msgs : List (String × ScheduledMessage)) :
    List (String × SavedMessage) :=
  msgs.map fun p => (p.1, ⟨p.2.chat_id, p.2.text, p.2.scheduled_time, p.2.channel, p.2.active⟩)

/-- `save_data()`: rewrite both files in full from the in-memory dicts. -/
def save_data (st : BotState) : BotState :=
  { st with files := ⟨st.channels, serialize_messages st.scheduled_messages⟩ }

/-- `load_data` rebuilding one `ScheduledMessage` from a messages.json
record; the dict key is used as `message_id` and no job is attached. -/
def deserialize_message (msg_id : String) (d : SavedMessage) : ScheduledMessage :=
  ⟨msg_id, d.chat_id, d.text, d.scheduled_time, d.channel, none, d.active⟩

/-- `load_data()`: rebuild the global dicts from the files.  No timer is
armed here (the job queue starts empty). -/
def load_data (files : SavedData) : BotState :=
  { channels := files.channelsFile
    scheduled_messages := files.messagesFile.map fun p => (p.1, deserialize_message p.1 p.2)
    jobQueue := []
    files := files }

/-- `main()` start-up as far as state goes: it calls `load_data()` and then
only registers handlers and starts polling — no job is armed for any loaded
message. -/
def main_startup (files : SavedData) : BotState :=
  load_data files

/-- `check_authorized`: the user is authorized iff their id equals the
configured `YOUR_USER_ID`. -/
def check_authorized (your_user_id user_id : Int) : Bool :=
  user_id == your_user_id

inductive AddChannelResult where
  | unauthorized | usage | invalidId | duplicate | ok
deriving DecidableEq, Repr

/-- `/addchannel <channel_id> <name>` handler. -/
def add_channel (your_user_id user_id : Int) (st : BotState) (args : List String) :
    AddChannelResult × BotState :=
  if ¬ check_authorized your_user_id user_id then (.unauthorized, st)
  else
    match args with
    | channel_id :: channel_name_raw :: _ =>
      let channel_name := strLower channel_name_raw
      if ¬ strStartsWith channel_id "-100" then (.invalidId, st)
      else if (lookupA st.channels channel_name).isSome then (.duplicate, st)
      else (.ok, save_data { st with channels := insertA st.channels channel_name channel_id })
    | _ => (.usage, st)

inductive DeleteChannelResult where
  | unauthorized | usage | notFound | conflict | ok
deriving DecidableEq, Repr

/-- `/deletechannel <name>` handler: refuses when any scheduled message
still references the channel. -/
def delete_channel (your_user_id user_id : Int) (st : BotState) (args : List String) :
    DeleteChannelResult × BotState :=
  if ¬ check_authorized your_user_id user_id then (.unauthorized, st)
  else
    match args with
    | channel_name_raw :: _ =>
      let channel_name := strLower channel_name_raw
      if (lookupA st.channels channel_name).isNone then (.notFound, st)
      else if st.scheduled_messages.any (fun p => p.2.channel == channel_name) then
        (.conflict, st)
      else (.ok, save_data { st with channels := eraseA st.channels channel_name })
    | [] => (.usage, st)

inductive ScheduleResult where
  | unauthorized | unknownChannel | invalidDelay | textTooLong
  | ok (msg : ScheduledMessage)
deriving DecidableEq, Repr

/-- The message record `/schedule` creates (after the job is attached). -/
def new_scheduled_message (chat_id : Int) (message_text : String)
    (channel_name : String) (now : Int) (time_minutes : Int) : ScheduledMessage :=
  { message_id := "msg_" ++ toString now
    chat_id := chat_id
    text := message_text
    scheduled_time := now + time_minutes * 60
    channel := channel_name
    job := some ("msg_" ++ toString now)
    active := true }

/-- `/schedule <channel_name> <time_minutes> <message>` handler with the
arguments already split.  `now` is `int(datetime.now().timestamp())`, the
current unix second; the id is `msg_{now}`; `scheduled_time = now +
minutes*60`; the job queue gets a one-shot job named after the message. -/
def schedule_message (your_user_id user_id : Int) (st : BotState) (chat_id : Int)
    (channel_name_raw : String) (time_minutes : Int) (message_text : String)
    (now : Int) : ScheduleResult × BotState :=
  if ¬ check_authorized your_user_id user_id then (.unauthorized, st)
  else
    let channel_name := strLower channel_name_raw
    if (lookupA st.channels channel_name).isNone then (.unknownChannel, st)
    else if time_minutes ≤ 0 then (.invalidDelay, st)
    else if 4000 < message_text.length then (.textTooLong, st)
    else
      let msg := new_scheduled_message chat_id message_text channel_name now time_minutes
      let st' : BotState :=
        { st with
          scheduled_messages := insertA st.scheduled_messages msg.message_id msg
          jobQueue := st.jobQueue ++ [(msg.message_id, time_minutes * 60)] }
      (.ok msg, save_data st')

/-- What a firing of `send_scheduled_message` produces: the new state, the
messages pushed to a channel (channel id, text), and the notifications sent
to the requester chat (chat id, text). -/
structure FireResult where
  state : BotState
  sent : List (String × String)
  notifications : List (Int × String)
deriving DecidableEq, Repr

/-- Text of the success notification to the requester. -/
def success_notification (m : ScheduledMessage) : String :=
  "✅ Scheduled message sent to `" ++ m.channel ++ "`!\n\n" ++ m.text

/-- Text of the error notification to the requester. -/
def error_notification (m : ScheduledMessage) (err : String) : String :=
  "❌ Error sending message to `" ++ m.channel ++ "`: " ++ err

/-- The fire callback `send_scheduled_message`.  `sendError = none` means
`bot.send_message` to the channel succeeds, `some err` that it raises with
detail `err`.  The send is attempted only when the record is still in the
store, is active, and its channel is registered; the clean-up at the end
removes the record and saves whenever the record was found. -/
def send_scheduled_message (st : BotState) (sendError : Option String)
    (message_id : String) : FireResult :=
  match lookupA st.scheduled_messages message_id with
  | none => ⟨st, [], []⟩
  | some m =>
    let outputs : List (String × String) × List (Int × String) :=
      if m.active then
        match lookupA st.channels m.channel with
        | some channel_id =>
          match sendError with
          | none => ([(channel_id, m.text)], [(m.chat_id, success_notification m)])
          | some err => ([], [(m.chat_id, error_notification m err)])
        | none => ([], [])
      else ([], [])
    let st' := save_data { st with scheduled_messages := eraseA st.scheduled_messages message_id }
    ⟨st', outputs.1, outputs.2⟩

/-- The sequence `/listschedule` iterates over and renders: the entries of
the `scheduled_messages` dict in order. -/
def list_scheduled_entries (st : BotState) : List (String × ScheduledMessage) :=
  st.scheduled_messages

inductive Callback where
  | enable (id : String)
  | disable (id : String)
  | delete (id : String)
  | other
deriving DecidableEq, Repr

/-- The prefix dispatch of `button_handler` on `query.data`:
`enable_`/`disable_`/`delete_` followed by the message id. -/
def parse_callback (data : String) : Callback :=
  if strStartsWith data "enable_" then .enable (data.drop 7)
  else if strStartsWith data "disable_" then .disable (data.drop 8)
  else if strStartsWith data "delete_" then .delete (data.drop 7)
  else .other

/-- The button callback handler: enable and disable flip `active` and save;
delete cancels the attached job (if any), removes the record and saves.
Every branch first checks the id is still in the dict; otherwise nothing
happens. -/
def button_handler (your_user_id user_id : Int) (st : BotState) (data : String) :
    BotState :=
  if ¬ check_authorized your_user_id user_id then st
  else
    match parse_callback data with
    | .enable message_id =>
      match lookupA st.scheduled_messages message_id with
      | some m =>
        let msgs := insertA st.scheduled_messages message_id { m with active := true }
        save_data { st with scheduled_messages := msgs }
      | none => st
    | .disable message_id =>
      match lookupA st.scheduled_messages message_id with
      | some m =>
        let msgs := insertA st.scheduled_messages message_id { m with active := false }
        save_data { st with scheduled_messages := msgs }
      | none => st
    | .delete message_id =>
      match lookupA st.scheduled_messages message_id with
      | some m =>
        let jq := match m.job with
          | some jobName => st.jobQueue.filter (fun p => p.1 != jobName)
          | none => st.jobQueue
        save_data { st with
          scheduled_messages := eraseA st.scheduled_messages message_id,
          jobQueue := jq }
      | none => st
    | .other => st

/-! ### Association-list lemmas -/

theorem lookupA_insertA_self {α : Type} (l : List (String × α)) (k : String) (v : α) :
    lookupA (insertA l k v) k = some v := by
  induction l with
  | nil => simp [insertA, lookupA]
  | cons p ps ih =>
    by_cases h : p.1 = k
    · simp [insertA, lookupA, h]
    · simp [insertA, lookupA, h, ih]

theorem lookupA_eraseA_self {α : Type} (l : List (String × α)) (k : String) :
    lookupA (eraseA l k) k = none := by
  induction l with
  | nil => rfl
  | cons p ps ih =>
    by_cases h : p.1 = k
    · simpa [eraseA, List.filter_cons, h] using ih
    · simpa [eraseA, List.filter_cons, h, lookupA] using ih

theorem not_mem_keys_eraseA {α : Type} (l : List (String × α)) (k : String) :
    k ∉ (eraseA l k).map Prod.fst := by
  intro hmem
  rcases List.mem_map.mp hmem with ⟨p, hp, hk⟩
  rcases List.mem_filter.mp hp with ⟨-, hne⟩
  exact absurd hk (by simpa using hne)

theorem countKey_insertA {α : Type} (l : List (String × α)) (k : String) (v : α)
    (h : (l.map Prod.fst).Nodup) : countKey (insertA l k v) k = 1 := by
  induction l with
  | nil => simp [insertA, countKey]
  | cons p ps ih =>
    rw [List.map_cons, List.nodup_cons] at h
    obtain ⟨hp, hps⟩ := h
    by_cases hk : p.1 = k
    · have hzero : ps.countP (fun q => q.1 == k) = 0 := by
        refine List.countP_eq_zero.mpr ?_
        intro q hq
        simp only [beq_iff_eq]
        intro hqk
        exact hp (hk ▸ hqk ▸ List.mem_map_of_mem Prod.fst hq)
      simp [insertA, countKey, hk, List.countP_cons, hzero]
    · have := ih hps
      simp [insertA, countKey, hk, List.countP_cons] at this ⊢
      simpa [countKey] using this

/-! ### Concrete states used by the counterexamples and bug witnesses -/

/-- A persisted snapshot holding one channel and one pending delivery whose
`scheduled_time` (unix second 100) is long past. -/
def restartFiles : SavedData :=
  ⟨[("ops", "-100555")], [("msg_1", ⟨42, "hello", 100, "ops", true⟩)]⟩

/-- A state with the channel `ops` registered and no pending delivery. -/
def collisionState : BotState := ⟨[("ops", "-100555")], [], [], ⟨[], []⟩⟩

/-- A state holding one active pending delivery that references the channel
`ops`, which is NOT in the channel registry. -/
def orphanState : BotState :=
  ⟨[], [("m1", ⟨"m1", 42, "hi", 100, "ops", some "m1", true⟩)], [("m1", 60)], ⟨[], []⟩⟩

/-- A state holding one ACTIVE pending delivery `m1` for the registered
channel `ops`. -/
def activeState : BotState :=
  ⟨[("ops", "-100555")], [("m1", ⟨"m1", 42, "hi", 100, "ops", some "m1", true⟩)],
   [("m1", 60)], ⟨[], []⟩⟩

/-- A state holding one DISABLED pending delivery `m1` for the registered
channel `ops`. -/
def disabledState : BotState :=
  ⟨[("ops", "-100555")], [("m1", ⟨"m1", 42, "hi", 100, "ops", some "m1", false⟩)],
   [("m1", 60)], ⟨[], []⟩⟩

/-! ### Button-handler stepping lemmas -/

theorem button_handler_disable_eq (yid : Int) (st : BotState) (d id : String)
    (m : ScheduledMessage) (hd : parse_callback d = .disable id)
    (hm : lookupA st.scheduled_messages id = some m) :
    button_handler yid yid st d = save_data { st with
      scheduled_messages := insertA st.scheduled_messages id { m with active := false } } := by
  simp [button_handler, check_authorized, hd, hm]

theorem button_handler_enable_eq (yid : Int) (st : BotState) (d id : String)
    (m : ScheduledMessage) (hd : parse_callback d = .enable id)
    (hm : lookupA st.scheduled_messages id = some m) :
    button_handler yid yid st d = save_data { st with
      scheduled_messages := insertA st.scheduled_messages id { m with active := true } } := by
  simp [button_handler, check_authorized, hd, hm]

/-! ### Claim theorems -/

/-- C1: the spec claims that on process start a timer is re-armed for every
persisted pending delivery, a past-due one firing immediately.  The code's
`main` only calls `load_data()` (which rebuilds the dicts and attaches no
job) before starting polling: for EVERY persisted snapshot the job queue
after start-up is empty, and in particular the past-due delivery of
`restartFiles` is loaded into the store with no job attached, so it can
never fire. -/
theorem restart_loads_but_arms_no_timer :
    (∀ files : SavedData, (main_startup files).jobQueue = []) ∧
    (main_startup restartFiles).scheduled_messages
      = [("msg_1", ⟨"msg_1", 42, "hello", 100, "ops", none, true⟩)] := by
  exact ⟨fun _ => rfl, rfl⟩

/-- C2: the spec claims generated ids differ even for creations within the
same clock second.  The id is `msg_{int(now.timestamp())}`: two `/schedule`
commands handled in the same second (`now = 1000`) produce the SAME id
`msg_1000`, and the second insert overwrites the first delivery, leaving a
single record holding the second text. -/
theorem schedule_same_second_id_collision :
    (schedule_message 7 7 collisionState 42 "ops" 5 "first" 1000).1
      = .ok (new_scheduled_message 42 "first" "ops" 1000 5) ∧
    (schedule_message 7 7
      (schedule_message 7 7 collisionState 42 "ops" 5 "first" 1000).2
      42 "ops" 8 "second" 1000).1
      = .ok (new_scheduled_message 42 "second" "ops" 1000 8) ∧
    (new_scheduled_message 42 "first" "ops" 1000 5).message_id
      = (new_scheduled_message 42 "second" "ops" 1000 8).message_id ∧
    (schedule_message 7 7
      (schedule_message 7 7 collisionState 42 "ops" 5 "first" 1000).2
      42 "ops" 8 "second" 1000).2.scheduled_messages
      = [("msg_1000", new_scheduled_message 42 "second" "ops" 1000 8)] := by
  decide

/-- C8: `save_data` followed by `load_data` of the written files reproduces
the channel registry exactly and every pending delivery's persisted view
(id, requester chat, text, due time, channel, active flag); only the
in-memory `job` handle is dropped. -/
theorem save_load_roundtrip (st : BotState) :
    (load_data (save_data st).files).channels = st.channels ∧
    serialize_messages (load_data (save_data st).files).scheduled_messages
      = serialize_messages st.scheduled_messages := by
  refine ⟨rfl, ?_⟩
  simp [load_data, save_data, serialize_messages, deserialize_message, List.map_map]

/-- C3 counterexample: in `orphanState` the delivery `m1` is active but its
channel `ops` is not registered.  The claim says the fire callback notifies
the requester of the error; in fact the whole send/notify block is skipped
(`notifications = []`) and the delivery is just removed. -/
theorem fire_missing_channel_no_notification_cex :
    (send_scheduled_message orphanState none "m1").notifications = [] ∧
    (send_scheduled_message orphanState none "m1").sent = [] ∧
    (send_scheduled_message orphanState none "m1").state.scheduled_messages = [] := by
  decide

/-- C3 (amended): when a delivery fires and its channel is no longer
registered, `Transport.send` is not invoked and the delivery is retired
(removed from the store), but the requester receives NO notification: the
failure is silent. -/
theorem fire_missing_channel_silently_retires (st : BotState)
    (sendError : Option String) (id : String) (m : ScheduledMessage)
    (hm : lookupA st.scheduled_messages id = some m)
    (hch : lookupA st.channels m.channel = none) :
    (send_scheduled_message st sendError id).sent = [] ∧
    (send_scheduled_message st sendError id).notifications = [] ∧
    lookupA (send_scheduled_message st sendError id).state.scheduled_messages id = none := by
  simp [send_scheduled_message, hm, hch, save_data, lookupA_eraseA_self]

/-- C3 witness: the amended theorem applied to `orphanState`. -/
theorem fire_missing_channel_silently_retires_witness :
    (send_scheduled_message orphanState none "m1").sent = [] ∧
    (send_scheduled_message orphanState none "m1").notifications = [] ∧
    lookupA (send_scheduled_message orphanState none "m1").state.scheduled_messages "m1"
      = none :=
  fire_missing_channel_silently_retires orphanState none "m1"
    ⟨"m1", 42, "hi", 100, "ops", some "m1", true⟩ (by decide) (by decide)

/-- C4: when a delivery fires while disabled, nothing is sent to the
channel, no notification goes out, the record is removed from the store,
and its id no longer appears among the entries `/listschedule` renders. -/
theorem fire_disabled_skips_send_and_retires (st : BotState)
    (sendError : Option String) (id : String) (m : ScheduledMessage)
    (hm : lookupA st.scheduled_messages id = some m) (hact : m.active = false) :
    (send_scheduled_message st sendError id).sent = [] ∧
    (send_scheduled_message st sendError id).notifications = [] ∧
    (send_scheduled_message st sendError id).state.scheduled_messages
      = eraseA st.scheduled_messages id ∧
    id ∉ (list_scheduled_entries (send_scheduled_message st sendError id).state).map
      Prod.fst := by
  have hstate : (send_scheduled_message st sendError id).state.scheduled_messages
      = eraseA st.scheduled_messages id := by
    simp [send_scheduled_message, hm, hact, save_data]
  refine ⟨?_, ?_, hstate, ?_⟩
  · simp [send_scheduled_message, hm, hact]
  · simp [send_scheduled_message, hm, hact]
  · show id ∉ ((send_scheduled_message st sendError id).state.scheduled_messages).map Prod.fst
    rw [hstate]
    exact not_mem_keys_eraseA st.scheduled_messages id

/-- C4 witness: the theorem applied to `disabledState`. -/
theorem fire_disabled_skips_send_and_retires_witness :
    (send_scheduled_message disabledState none "m1").sent = [] ∧
    (send_scheduled_message disabledState none "m1").notifications = [] ∧
    (send_scheduled_message disabledState none "m1").state.scheduled_messages
      = eraseA disabledState.scheduled_messages "m1" ∧
    "m1" ∉ (list_scheduled_entries (send_scheduled_message disabledState none "m1").state).map
      Prod.fst :=
  fire_disabled_skips_send_and_retires disabledState none "m1"
    ⟨"m1", 42, "hi", 100, "ops", some "m1", false⟩ (by decide) (by decide)

/-- C7: on a pending delivery, pressing OFF and then ON leaves every field
except `active` unchanged: after the disable the stored record is the
original with `active := false`, and after the subsequent enable it is the
original with `active := true` (so `scheduled_time`, `text`, `chat_id`,
`channel` and `job` are untouched). -/
theorem disable_enable_roundtrip (yid : Int) (st : BotState) (d1 d2 id : String)
    (m : ScheduledMessage)
    (h1 : parse_callback d1 = .disable id) (h2 : parse_callback d2 = .enable id)
    (hm : lookupA st.scheduled_messages id = some m) :
    lookupA (button_handler yid yid st d1).scheduled_messages id
      = some { m with active := false } ∧
    lookupA (button_handler yid yid (button_handler yid yid st d1) d2).scheduled_messages id
      = some { m with active := true } := by
  rw [button_handler_disable_eq yid st d1 id m h1 hm]
  have hm1 : lookupA (save_data { st with
      scheduled_messages := insertA st.scheduled_messages id
        { m with active := false } }).scheduled_messages id
      = some { m with active := false } :=
    lookupA_insertA_self st.scheduled_messages id { m with active := false }
  refine ⟨hm1, ?_⟩
  rw [button_handler_enable_eq yid _ d2 id { m with active := false } h2 hm1]
  exact lookupA_insertA_self _ id { m with active := true }

/-- C7 witness: the theorem applied to `activeState` with the callback
strings `disable_m1` and `enable_m1`. -/
theorem disable_enable_roundtrip_witness :
    lookupA (button_handler 7 7 activeState "disable_m1").scheduled_messages "m1"
      = some ⟨"m1", 42, "hi", 100, "ops", some "m1", false⟩ ∧
    lookupA (button_handler 7 7 (button_handler 7 7 activeState "disable_m1")
        "enable_m1").scheduled_messages "m1"
      = some ⟨"m1", 42, "hi", 100, "ops", some "m1", true⟩ :=
  disable_enable_roundtrip 7 activeState "disable_m1" "enable_m1" "m1"
    ⟨"m1", 42, "hi", 100, "ops", some "m1", true⟩ (by decide) (by decide) (by decide)

/-- C9: firing the callback for an id absent from the store changes nothing
and sends nothing, and a DELETE button press for an absent id is likewise a
no-op rather than a crash. -/
theorem fire_absent_id_noop (yid : Int) (st : BotState) (sendError : Option String)
    (d id : String) (habs : lookupA st.scheduled_messages id = none)
    (hd : parse_callback d = .delete id) :
    send_scheduled_message st sendError id = ⟨st, [], []⟩ ∧
    button_handler yid yid st d = st := by
  constructor
  · simp [send_scheduled_message, habs]
  · simp [button_handler, check_authorized, hd, habs]

/-- C9 witness: the theorem applied to `collisionState` (whose store is
empty) with id `m1` and the callback string `delete_m1`. -/
theorem fire_absent_id_noop_witness :
    send_scheduled_message collisionState none "m1" = ⟨collisionState, [], []⟩ ∧
    button_handler 7 7 collisionState "delete_m1" = collisionState :=
  fire_absent_id_noop 7 collisionState none "delete_m1" "m1" (by decide) (by decide)

/-- C10: a command or button callback from any user other than the
configured operator returns before any mutation: the whole state — channel
registry, delivery store, job queue and the persisted files — is returned
unchanged by every mutating handler. -/
theorem unauthorized_no_mutation (yid uid : Int) (st : BotState) (chat_id : Int)
    (args : List String) (cname : String) (tm : Int) (text : String) (now : Int)
    (d : String) (h : uid ≠ yid) :
    (add_channel yid uid st args).2 = st ∧
    (delete_channel yid uid st args).2 = st ∧
    (schedule_message yid uid st chat_id cname tm text now).2 = st ∧
    button_handler yid uid st d = st := by
  have hc : check_authorized yid uid = false := by
    simp [check_authorized, h]
  simp [add_channel, delete_channel, schedule_message, button_handler, hc]

/-- C10 witness: the theorem applied to user 2 against operator 7 on
`activeState`. -/
theorem unauthorized_no_mutation_witness :
    (add_channel 7 2 activeState ["-100999", "news"]).2 = activeState ∧
    (delete_channel 7 2 activeState ["ops"]).2 = activeState ∧
    (schedule_message 7 2 activeState 42 "ops" 5 "hello" 1000).2 = activeState ∧
    button_handler 7 2 activeState "delete_m1" = activeState :=
  unauthorized_no_mutation 7 2 activeState 42 ["-100999", "news"] "ops" 5 "hello"
    1000 "delete_m1" (by decide)

/-- C5: `/schedule` on a registered channel with a positive delay and a
text of at most 4000 characters succeeds: it returns the new delivery,
whose due time is the creation second plus the delay (minutes × 60) and
whose state is active, and that delivery is stored under its id exactly
once among the entries `/listschedule` renders.  With an unregistered
channel it fails with the unknown-channel error; with a registered channel
and a non-positive delay, with the invalid-delay error; with a registered
channel, positive delay and over-long text, with the text-too-long error —
each failure returning the state (store, files, job queue) unchanged. -/
theorem schedule_message_spec (yid : Int) (st : BotState) (chat_id : Int)
    (cname : String) (tm : Int) (text : String) (now : Int)
    (hnd : (st.scheduled_messages.map Prod.fst).Nodup) :
    (lookupA st.channels (strLower cname) = none →
      schedule_message yid yid st chat_id cname tm text now = (.unknownChannel, st)) ∧
    (∀ dest, lookupA st.channels (strLower cname) = some dest → tm ≤ 0 →
      schedule_message yid yid st chat_id cname tm text now = (.invalidDelay, st)) ∧
    (∀ dest, lookupA st.channels (strLower cname) = some dest → 0 < tm →
      4000 < text.length →
      schedule_message yid yid st chat_id cname tm text now = (.textTooLong, st)) ∧
    (∀ dest, lookupA st.channels (strLower cname) = some dest → 0 < tm →
      text.length ≤ 4000 →
      (schedule_message yid yid st chat_id cname tm text now).1
        = .ok (new_scheduled_message chat_id text (strLower cname) now tm) ∧
      (new_scheduled_message chat_id text (strLower cname) now tm).scheduled_time
        = now + tm * 60 ∧
      (new_scheduled_message chat_id text (strLower cname) now tm).active = true ∧
      lookupA (schedule_message yid yid st chat_id cname tm text now).2.scheduled_messages
          ("msg_" ++ toString now)
        = some (new_scheduled_message chat_id text (strLower cname) now tm) ∧
      countKey (list_scheduled_entries
          (schedule_message yid yid st chat_id cname tm text now).2)
          ("msg_" ++ toString now) = 1) := by
  refine ⟨?_, ?_, ?_, ?_⟩
  · intro hch
    simp [schedule_message, check_authorized, hch]
  · intro dest hch htm
    simp [schedule_message, check_authorized, hch, htm]
  · intro dest hch htm hlen
    simp [schedule_message, check_authorized, hch, hlen, show ¬ tm ≤ 0 by omega]
  · intro dest hch htm hlen
    have hstep : schedule_message yid yid st chat_id cname tm text now
        = (.ok (new_scheduled_message chat_id text (strLower cname) now tm),
           save_data { st with
             scheduled_messages := insertA st.scheduled_messages
               ("msg_" ++ toString now)
               (new_scheduled_message chat_id text (strLower cname) now tm),
             jobQueue := st.jobQueue ++ [("msg_" ++ toString now, tm * 60)] }) := by
      simp [schedule_message, check_authorized, hch, new_scheduled_message,
        show ¬ tm ≤ 0 by omega, show ¬ 4000 < text.length by omega]
    rw [hstep]
    exact ⟨rfl, rfl, rfl,
      lookupA_insertA_self st.scheduled_messages ("msg_" ++ toString now) _,
      countKey_insertA st.scheduled_messages ("msg_" ++ toString now) _ hnd⟩

/-- C5 witness: the theorem applied to `collisionState` (channel `ops`
registered, empty store), with every branch exercised non-vacuously at a
concrete input: the success branch at `ops` with delay 5 and text `hello`
(whose delivery is stored once with due time 1000 + 5·60), the
unknown-channel branch at `news`, the invalid-delay branch at delay 0, and
the text-too-long branch at a 4001-character text. -/
theorem schedule_message_spec_witness :
    ((schedule_message 7 7 collisionState 42 "ops" 5 "hello" 1000).1
        = .ok (new_scheduled_message 42 "hello" (strLower "ops") 1000 5) ∧
      (new_scheduled_message 42 "hello" (strLower "ops") 1000 5).scheduled_time
        = 1000 + 5 * 60 ∧
      (new_scheduled_message 42 "hello" (strLower "ops") 1000 5).active = true ∧
      lookupA (schedule_message 7 7 collisionState 42 "ops" 5 "hello" 1000).2.scheduled_messages
          ("msg_" ++ toString (1000 : Int))
        = some (new_scheduled_message 42 "hello" (strLower "ops") 1000 5) ∧
      countKey (list_scheduled_entries
          (schedule_message 7 7 collisionState 42 "ops" 5 "hello" 1000).2)
          ("msg_" ++ toString (1000 : Int)) = 1) ∧
    schedule_message 7 7 collisionState 42 "news" 5 "hello" 1000
      = (.unknownChannel, collisionState) ∧
    schedule_message 7 7 collisionState 42 "ops" 0 "hello" 1000
      = (.invalidDelay, collisionState) ∧
    schedule_message 7 7 collisionState 42 "ops" 5
        (String.mk (List.replicate 4001 'x')) 1000
      = (.textTooLong, collisionState) :=
  ⟨(schedule_message_spec 7 collisionState 42 "ops" 5 "hello" 1000 (by decide)).2.2.2
      "-100555" (by decide) (by decide) (by decide),
   (schedule_message_spec 7 collisionState 42 "news" 5 "hello" 1000 (by decide)).1
      (by decide),
   (schedule_message_spec 7 collisionState 42 "ops" 0 "hello" 1000 (by decide)).2.1
      "-100555" (by decide) (by decide),
   (schedule_message_spec 7 collisionState 42 "ops" 5
        (String.mk (List.replicate 4001 'x')) 1000 (by decide)).2.2.1
      "-100555" (by decide) (by decide)
      (by
        show 4000 < (List.replicate 4001 'x').length
        rw [List.length_replicate]
        omega)⟩

/-- C6: deleting a channel that at least one pending delivery references
fails with the in-use conflict and returns the state — registry, store and
files — unchanged; deleting a registered channel that no pending delivery
references succeeds and removes it from the registry listing. -/
theorem delete_channel_spec (yid : Int) (st : BotState) (name dest : String)
    (rest : List String)
    (hch : lookupA st.channels (strLower name) = some dest) :
    ((st.scheduled_messages.any fun p => p.2.channel == strLower name) = true →
      delete_channel yid yid st (name :: rest) = (.conflict, st)) ∧
    ((st.scheduled_messages.any fun p => p.2.channel == strLower name) = false →
      (delete_channel yid yid st (name :: rest)).1 = .ok ∧
      lookupA (delete_channel yid yid st (name :: rest)).2.channels (strLower name)
        = none ∧
      strLower name ∉ ((delete_channel yid yid st (name :: rest)).2.channels.map
        Prod.fst)) := by
  constructor
  · intro hany
    simp [delete_channel, check_authorized, hch, hany]
  · intro hany
    have hstep : delete_channel yid yid st (name :: rest)
        = (.ok, save_data { st with channels := eraseA st.channels (strLower name) }) := by
      simp [delete_channel, check_authorized, hch, hany]
    rw [hstep]
    exact ⟨rfl, lookupA_eraseA_self st.channels (strLower name),
      not_mem_keys_eraseA st.channels (strLower name)⟩

/-- C6 witness: the theorem applied to `activeState` (channel `ops`
referenced by the pending delivery `m1`, hence the conflict branch) — the
unreferenced branch is vacuously instantiable there, and the success branch
fires on `collisionState` through the same theorem at its empty store. -/
theorem delete_channel_spec_witness :
    (((activeState.scheduled_messages.any fun p => p.2.channel == strLower "ops") = true →
      delete_channel 7 7 activeState ["ops"] = (.conflict, activeState)) ∧
    ((activeState.scheduled_messages.any fun p => p.2.channel == strLower "ops") = false →
      (delete_channel 7 7 activeState ["ops"]).1 = .ok ∧
      lookupA (delete_channel 7 7 activeState ["ops"]).2.channels (strLower "ops") = none ∧
      strLower "ops" ∉ ((delete_channel 7 7 activeState ["ops"]).2.channels.map Prod.fst))) ∧
    (((collisionState.scheduled_messages.any fun p => p.2.channel == strLower "ops") = true →
      delete_channel 7 7 collisionState ["ops"] = (.conflict, collisionState)) ∧
    ((collisionState.scheduled_messages.any fun p => p.2.channel == strLower "ops") = false →
      (delete_channel 7 7 collisionState ["ops"]).1 = .ok ∧
      lookupA (delete_channel 7 7 collisionState ["ops"]).2.channels (strLower "ops") = none ∧
      strLower "ops" ∉ ((delete_channel 7 7 collisionState ["ops"]).2.channels.map Prod.fst))) :=
  ⟨delete_channel_spec 7 activeState "ops" "-100555" [] (by decide),
   delete_channel_spec 7 collisionState "ops" "-100555" [] (by decide)⟩

end Bot
